import Mathlib

set_option linter.unusedVariables false

namespace PetA2A

/-!  Shallow embedding of the token delegation and validation engine of the
PET_A2A--secure repository.

Modelling conventions, shared by all definitions below:
* epoch timestamps and durations are natural numbers (seconds);
* Python string truthiness (`if s:`) is `s ≠ ""`, and `x or d` on strings is
  `pyOr`;
* network I/O is passed in as explicit oracle arguments (the response the
  IdP would give), and each definition returns the list of requests it
  performed, so that "no network call" is a provable statement;
* JWT signature verification is an abstract boolean oracle
  `verify : Token → Jwk → Bool` standing for `jose.jwt.decode`'s
  RS256 signature check against a selected JWKS key.
-/

/-- ASCII lowercasing, standing for Python `str.lower()`
(header values and env flags here are ASCII). -/
def lowerString (s : String) : String := ⟨s.data.map Char.toLower⟩

/-- Helper for `splitWords`: split a character list on whitespace runs,
dropping empty pieces, accumulating the current word reversed. -/
def wordSplitAux : List Char → List Char → List (List Char)
  | [], acc => if acc = [] then [] else [acc.reverse]
  | c :: rest, acc =>
    if c.isWhitespace then
      (if acc = [] then wordSplitAux rest [] else acc.reverse :: wordSplitAux rest [])
    else wordSplitAux rest (c :: acc)

/-- Python `str.split()` with no argument: split on whitespace runs and
drop empty strings. -/
def splitWords (s : String) : List String := (wordSplitAux s.data []).map (fun l => ⟨l⟩)

/-- Whether the second list is an initial segment of the first. -/
def listStarts : List Char → List Char → Bool
  | _, [] => true
  | [], _ :: _ => false
  | a :: as, b :: bs => a == b && listStarts as bs

/-- Python `str.startswith`. -/
def strStarts (s pre : String) : Bool := listStarts s.data pre.data

/-- Whether the second list occurs as a contiguous sublist of the first. -/
def containsChars : List Char → List Char → Bool
  | h, n => listStarts h n ||
      match h with
      | [] => false
      | _ :: t => containsChars t n

/-- Python `needle in hay` for strings. -/
def containsSubstring (hay needle : String) : Bool := containsChars hay.data needle.data

/-- Python `x or default` for an optional string (`None` and `""` are falsy). -/
def pyOr (s : Option String) (d : String) : String :=
  match s with
  | some v => if v = "" then d else v
  | none => d

/-- Python truthiness of an optional string. -/
def pyTruthy (s : Option String) : Bool :=
  match s with
  | some v => v != ""
  | none => false

/-! ## Bearer Token Verifier (src/agents/appointments_agent/middleware.py) -/

/-- One public key of a JWKS, as selected by `_validate_token` STEP 3
(`kty`, `kid`, `use`, `n`, `e`). -/
structure Jwk where
  kid : String
  kty : String
  keyUse : String
  n : String
  e : String
  deriving Repr, DecidableEq

/-- A JSON Web Key Set as fetched from the JWKS endpoint. -/
structure JWKSet where
  keys : List Jwk
  deriving Repr, DecidableEq

/-- Decoded JWT payload claims used by the middleware. -/
structure TokenClaims where
  iss : String
  exp : Nat
  aud : Option String
  sub : Option String
  clientId : Option String
  scope : Option String
  deriving Repr, DecidableEq

/-- An inbound JWT after parsing: the header `kid` and the payload claims. -/
structure Token where
  kid : Option String
  claims : TokenClaims
  deriving Repr, DecidableEq

/-- Configuration state of `AsgardeoJWTMiddleware` after `__init__`. -/
structure MiddlewareConfig where
  jwksUrl : String
  issuer : String
  requiredScope : String
  agentId : String
  apiResourceIdentifier : String
  enabled : Bool
  deriving Repr, DecidableEq

/-- The `valid_audiences` list built in `AsgardeoJWTMiddleware.__init__`:
the agent id and/or the API resource identifier, whichever are non-empty. -/
def validAudiences (agentId apiResourceIdentifier : String) : List String :=
  (if agentId ≠ "" then [agentId] else []) ++
    (if apiResourceIdentifier ≠ "" then [apiResourceIdentifier] else [])

/-- `AsgardeoJWTMiddleware.__init__`: the `or`-defaults for `agent_id`
(env `APPOINTMENTS_APP_ID`) and `api_resource_identifier`
(env `API_RESOURCE_IDENTIFIER`). -/
def mkAsgardeoJWTMiddleware (jwksUrl issuer requiredScope : String)
    (agentId apiResourceIdentifier : Option String)
    (envAppointmentsAppId envApiResourceIdentifier : String)
    (enabled : Bool) : MiddlewareConfig :=
  { jwksUrl := jwksUrl
    issuer := issuer
    requiredScope := requiredScope
    agentId := pyOr agentId envAppointmentsAppId
    apiResourceIdentifier := pyOr apiResourceIdentifier envApiResourceIdentifier
    enabled := enabled }

/-- JWKS cache fields of the middleware (`_jwks_cache`, `_jwks_cache_time`). -/
structure JwksCacheState where
  cache : Option JWKSet
  cacheTime : Option Nat
  deriving Repr, DecidableEq

/-- `_jwks_cache_duration` (24 hours). -/
def jwksCacheDuration : Nat := 86400

/-- The freshness test of `_get_jwks`: a cache exists, a fetch time exists,
and less than 24 hours have elapsed. -/
def cacheFresh (st : JwksCacheState) (now : Nat) : Bool :=
  match st.cache, st.cacheTime with
  | some _, some t => now - t < jwksCacheDuration
  | _, _ => false

/-- `AsgardeoJWTMiddleware._get_jwks`.  `fetchResult` is the network oracle
(`none` = the HTTP GET raised).  Returns the JWKS (or a transport error when
there is no cache to fall back on), the updated cache state, and the number
of fetch attempts made (0 or 1). -/
def getJwks (st : JwksCacheState) (now : Nat) (fetchResult : Option JWKSet) :
    Except String JWKSet × JwksCacheState × Nat :=
  if cacheFresh st now then
    (.ok (st.cache.getD ⟨[]⟩), st, 0)
  else
    match fetchResult with
    | some j => (.ok j, ⟨some j, some now⟩, 1)
    | none =>
      match st.cache with
      | some c => (.ok c, st, 1)
      | none => (.error "Failed to fetch JWKS", st, 1)

/-- STEP 3 of `_validate_token`: select the JWKS key whose `kid` equals the
token header's `kid` (no match when the header has no `kid`). -/
def findRsaKey (keys : List Jwk) (kid : Option String) : Option Jwk :=
  keys.find? (fun k => kid == some k.kid)

/-- STEP 5 of `_validate_token`: Python `token_audience in valid_audiences`
(a missing `aud` claim is `None`, which is never a member). -/
def audMatches (aud : Option String) (auds : List String) : Bool :=
  match aud with
  | some a => auds.contains a
  | none => false

/-- Validation failures: `JWTError`s become 401s in `dispatch`; everything
else (a JWKS fetch failure with an empty cache) escapes `_validate_token`
as a non-`JWTError` exception and becomes a 500. -/
inductive ValidationError
  | jwtError (msg : String)
  | transportError (msg : String)
  deriving Repr, DecidableEq

/-- `AsgardeoJWTMiddleware._validate_token`.  `decode` is the JWT parsing
oracle (`jose.jwt.get_unverified_header` / `get_unverified_claims`;
`none` = malformed token, a `JWTError`), `verify` the signature oracle of
`jose.jwt.decode`.  Mirrors the source order: fetch JWKS, parse the token,
select the key by `kid`, check signature, expiry and issuer
(`jose` accepts `now ≤ exp`), then the manual audience check, which is
skipped when `valid_audiences` is empty.  Returns the outcome, the updated
JWKS cache state and the number of JWKS fetch attempts. -/
def validateToken (cfg : MiddlewareConfig) (verify : Token → Jwk → Bool)
    (decode : String → Option Token)
    (st : JwksCacheState) (now : Nat) (fetchResult : Option JWKSet)
    (tokenStr : String) :
    Except ValidationError TokenClaims × JwksCacheState × Nat :=
  match getJwks st now fetchResult with
  | (.error e, st2, fc) => (.error (.transportError e), st2, fc)
  | (.ok jwks, st2, fc) =>
    match decode tokenStr with
    | none => (.error (.jwtError "Unable to parse token"), st2, fc)
    | some tok =>
      match findRsaKey jwks.keys tok.kid with
      | none => (.error (.jwtError "Public key not found for kid"), st2, fc)
      | some rsaKey =>
        if !verify tok rsaKey then
          (.error (.jwtError "Signature verification failed"), st2, fc)
        else if tok.claims.exp < now then
          (.error (.jwtError "Signature has expired"), st2, fc)
        else if tok.claims.iss ≠ cfg.issuer then
          (.error (.jwtError "Invalid issuer"), st2, fc)
        else
          let auds := validAudiences cfg.agentId cfg.apiResourceIdentifier
          if !auds.isEmpty && !audMatches tok.claims.aud auds then
            (.error (.jwtError "Invalid audience"), st2, fc)
          else
            (.ok tok.claims, st2, fc)

/-- The `_public_paths` allowlist. -/
def publicPaths : List String := ["/.well-known/agent-card.json", "/health"]

/-- `AsgardeoJWTMiddleware._is_public_path`. -/
def isPublicPath (path : String) : Bool :=
  publicPaths.any (fun p => strStarts path p)

/-- An inbound HTTP request as seen by the middleware. -/
structure HttpRequest where
  path : String
  authorization : Option String
  deriving Repr, DecidableEq

/-- Outcome of `dispatch`: either the request is forwarded to `call_next`
(with the verified claims and `client_id` attached to the request state
when validation ran), or rejected with a JSON error body. -/
inductive DispatchResult
  | forwarded (claims : Option TokenClaims) (clientId : Option String)
  | rejected (status : Nat) (error : String) (errorDescription : String)
  deriving Repr, DecidableEq

/-- `AsgardeoJWTMiddleware.dispatch`: bypass when disabled, bypass public
paths, 401 `unauthorized` when the header is missing, 401 `invalid_request`
when it is not a two-part `Bearer` value, then `_validate_token` with
`JWTError` ↦ 401 `invalid_token` and any other exception ↦ 500
`server_error`. -/
def dispatch (cfg : MiddlewareConfig) (verify : Token → Jwk → Bool)
    (decode : String → Option Token)
    (st : JwksCacheState) (now : Nat) (fetchResult : Option JWKSet)
    (req : HttpRequest) : DispatchResult × JwksCacheState × Nat :=
  if !cfg.enabled then
    (.forwarded none none, st, 0)
  else if isPublicPath req.path then
    (.forwarded none none, st, 0)
  else
    match req.authorization with
    | none => (.rejected 401 "unauthorized" "Missing authentication token", st, 0)
    | some authHeader =>
      let parts := splitWords authHeader
      if parts.length ≠ 2 || lowerString (parts.headD "") ≠ "bearer" then
        (.rejected 401 "invalid_request" "Invalid Authorization header format", st, 0)
      else
        match validateToken cfg verify decode st now fetchResult (parts.getD 1 "") with
        | (.ok claims, st2, fc) => (.forwarded (some claims) claims.clientId, st2, fc)
        | (.error (.jwtError m), st2, fc) => (.rejected 401 "invalid_token" m, st2, fc)
        | (.error (.transportError m), st2, fc) =>
          (.rejected 500 "server_error" "Token validation failed due to server error", st2, fc)

/-- The combined validity condition `_validate_token` enforces on a parsed
token against a fetched JWKS: a key matching the token's header `kid`
exists and verifies the signature, the token is unexpired, the issuer
matches the configured issuer, and the `aud` claim matches a member of the
configured audience list. -/
def tokenChecksPass (cfg : MiddlewareConfig) (verify : Token → Jwk → Bool)
    (jwks : JWKSet) (now : Nat) (tok : Token) : Bool :=
  (match findRsaKey jwks.keys tok.kid with
   | some k => verify tok k
   | none => false)
  && !(tok.claims.exp < now)
  && (tok.claims.iss == cfg.issuer)
  && audMatches tok.claims.aud (validAudiences cfg.agentId cfg.apiResourceIdentifier)

/-- Environment variables read by `create_jwt_middleware_from_env` and the
constructor defaults it relies on. -/
structure MiddlewareEnv where
  jwksUrl : Option String
  issuer : Option String
  authEnabled : Option String
  appointmentsAppId : Option String
  apiResourceIdentifier : Option String
  deriving Repr, DecidableEq

/-- `create_jwt_middleware_from_env`: reads the env, defaults the enable
flag to `"true"`, and, when the JWKS URL or the issuer is missing or empty,
prints a warning and forces `enabled := false` instead of raising. -/
def createJwtMiddlewareFromEnv (env : MiddlewareEnv) (requiredScope : String)
    (agentId : Option String) : MiddlewareConfig :=
  let enabled := lowerString (env.authEnabled.getD "true") == "true"
  let agentId2 := pyOr agentId (env.appointmentsAppId.getD "")
  let enabled2 := if !pyTruthy env.jwksUrl || !pyTruthy env.issuer then false else enabled
  mkAsgardeoJWTMiddleware (env.jwksUrl.getD "") (env.issuer.getD "") requiredScope
    (some agentId2) none (env.appointmentsAppId.getD "") (env.apiResourceIdentifier.getD "")
    enabled2

/-! ## Token Exchanger (src/orchestrator/token_exchange.py) -/

/-- Authentication carried on an outbound IdP request: HTTP Basic with a
client id / secret pair, or no auth header. -/
inductive ReqAuth
  | basic (user pass : String)
  | noAuth
  deriving Repr, DecidableEq

/-- One POST sent to the IdP: endpoint URL, urlencoded form body, auth. -/
structure IdpRequest where
  url : String
  formData : List (String × String)
  auth : ReqAuth
  deriving Repr, DecidableEq

/-- One `_token_cache` entry: `{'token': str, 'expiry': float}`. -/
structure CacheEntry where
  token : String
  expiry : Nat
  deriving Repr, DecidableEq

/-- The `_token_cache` dict, keyed by agent name. -/
abbrev TokenCache := List (String × CacheEntry)

/-- Python `del cache[k]`. -/
def cacheErase (c : TokenCache) (k : String) : TokenCache :=
  c.filter (fun p => p.1 != k)

/-- Python `cache[k] = v` (replaces any existing entry for `k`). -/
def cacheInsert (c : TokenCache) (k : String) (v : CacheEntry) : TokenCache :=
  cacheErase c k ++ [(k, v)]

/-- `TokenExchanger.__init__` configuration. -/
structure ExchangerConfig where
  tokenExchangeUrl : String
  clientId : String
  clientSecret : String
  apiResourceIdentifier : Option String
  deriving Repr, DecidableEq

/-- Environment secrets consulted by `_get_agent_secret`. -/
structure ExchangerEnv where
  vaccinationAppSecret : Option String
  appointmentsAppSecret : Option String
  deriving Repr, DecidableEq

/-- The placeholder secrets `_get_agent_secret` rejects. -/
def placeholderSecrets : List String :=
  ["<YOUR_VACCINATION_AGENT_SECRET>", "<YOUR_APPOINTMENTS_AGENT_SECRET>"]

/-- `TokenExchanger._get_agent_secret`: pattern-match the agent display
name to an env secret, rejecting empty and placeholder values. -/
def getAgentSecret (env : ExchangerEnv) (agentName : String) : Option String :=
  let secret :=
    if containsSubstring agentName "Vaccination" then
      env.vaccinationAppSecret.getD ""
    else if containsSubstring agentName "Appointment" ||
        containsSubstring agentName "Scheduler" ||
        containsSubstring agentName "Clinic" then
      env.appointmentsAppSecret.getD ""
    else ""
  if secret != "" && !placeholderSecrets.contains secret then some secret
  else none

/-- `TokenExchanger._get_cached_token`: return the cached token if
`time.time() < expiry`, otherwise delete the stale entry and return
nothing. -/
def getCachedToken (cache : TokenCache) (now : Nat) (agentName : String) :
    Option String × TokenCache :=
  match cache.lookup agentName with
  | none => (none, cache)
  | some entry =>
    if now < entry.expiry then (some entry.token, cache)
    else (none, cacheErase cache agentName)

/-- The scope formatting of `exchange_token_for_agent`: with an API
resource identifier configured, `openid {identifier}/{scope}` (written
here with explicit concatenation), else the raw required scope. -/
def formatScope (apiResourceIdentifier : Option String) (requiredScope : String) : String :=
  if pyTruthy apiResourceIdentifier then
    "openid " ++ apiResourceIdentifier.getD "" ++ "/" ++ requiredScope
  else requiredScope

/-- The `exchange_data` form body built by `exchange_token_for_agent`:
the RFC 8693 fields, plus `audience`/`resource` when an API resource
identifier is configured.  Notably it has no `actor_token` field. -/
def exchangeRequestData (apiResourceIdentifier : Option String)
    (masterToken requiredScope : String) : List (String × String) :=
  [("grant_type", "urn:ietf:params:oauth:grant-type:token-exchange"),
   ("subject_token", masterToken),
   ("subject_token_type", "urn:ietf:params:oauth:token-type:jwt"),
   ("requested_token_type", "urn:ietf:params:oauth:token-type:access_token"),
   ("scope", formatScope apiResourceIdentifier requiredScope)] ++
  (if pyTruthy apiResourceIdentifier then
    [("audience", apiResourceIdentifier.getD ""),
     ("resource", apiResourceIdentifier.getD "")]
   else [])

/-- The client-credentials POST issued by `TokenExchanger._get_actor_token`,
authenticated as the agent (Basic `agent_client_id:agent_secret`). -/
def actorTokenRequest (url agentClientId agentSecret : String) : IdpRequest :=
  { url := url
    formData := [("grant_type", "client_credentials"), ("scope", "openid")]
    auth := .basic agentClientId agentSecret }

/-- A parsed token-endpoint success body (`access_token`, optional
`expires_in` defaulted to 3600 where it is read). -/
structure ExchangeResponse where
  accessToken : String
  expiresIn : Option Nat
  deriving Repr, DecidableEq

/-- `TokenExchanger.exchange_token_for_agent`.  Oracles: `actorResp` is the
IdP body answering `_get_actor_token` and `exchResp` the one answering the
exchange POST (`.error` = non-200 body).  Returns the outcome, the updated
`_token_cache`, and the list of IdP requests actually issued, in order.
Mirrors the source: cache hit short-circuits with no request; a missing
agent secret raises before any request; the actor token is obtained first;
the exchange request is then built from the master token and scope only and
authenticated as the agent via Basic auth — the bound actor token is not
part of it; on success the token is cached with
`expiry = now + expires_in − 60`. -/
def exchangeTokenForAgent (cfg : ExchangerConfig) (env : ExchangerEnv)
    (cache : TokenCache) (now : Nat)
    (masterToken agentName agentClientId requiredScope : String)
    (actorResp : Except String String)
    (exchResp : Except String ExchangeResponse) :
    Except String String × TokenCache × List IdpRequest :=
  match getCachedToken cache now agentName with
  | (some t, cache2) => (.ok t, cache2, [])
  | (none, cache2) =>
    match getAgentSecret env agentName with
    | none => (.error ("No client secret configured for " ++ agentName), cache2, [])
    | some agentSecret =>
      let actorReq := actorTokenRequest cfg.tokenExchangeUrl agentClientId agentSecret
      match actorResp with
      | .error body => (.error ("Failed to get actor token: " ++ body), cache2, [actorReq])
      | .ok actorToken =>
        let exchReq : IdpRequest :=
          { url := cfg.tokenExchangeUrl
            formData := exchangeRequestData cfg.apiResourceIdentifier masterToken requiredScope
            auth := .basic agentClientId agentSecret }
        match exchResp with
        | .error body =>
          (.error ("Token exchange failed for " ++ agentName ++ ": " ++ body),
            cache2, [actorReq, exchReq])
        | .ok resp =>
          let newCache := cacheInsert cache2 agentName
            { token := resp.accessToken, expiry := now + resp.expiresIn.getD 3600 - 60 }
          (.ok resp.accessToken, newCache, [actorReq, exchReq])

/-! ## Orchestrator tool `talk_to_agent`
(src/agents/orchestrator_agent/agent.py and src/orchestrator/agent.py,
identical in the modelled logic) -/

/-- The module-level `DELEGATED_TOKENS` dict: agent name ↦ token string,
with no expiry recorded. -/
abbrev DelegatedTokens := List (String × String)

/-- Python `DELEGATED_TOKENS[k] = v`. -/
def delegatedInsert (c : DelegatedTokens) (k v : String) : DelegatedTokens :=
  c.filter (fun p => p.1 != k) ++ [(k, v)]

/-- The `AgentConfig` records stored in `AGENT_CONFIGS`. -/
structure AgentConfigRec where
  name : String
  appId : String
  appSecret : String
  requiredScope : String
  deriving Repr, DecidableEq

/-- Outcome of one `talk_to_agent` invocation: an error string returned to
the LLM, or a message actually sent to the remote agent, carrying
`some token` when the request went out with `Authorization: Bearer token`
and `none` when it was sent on the default unauthenticated client. -/
inductive TalkResult
  | errorMsg (msg : String)
  | sent (bearerToken : Option String)
  deriving Repr, DecidableEq

/-- STEP 4 of `talk_to_agent`: `if agent_token:` — a truthy token is sent
as `Authorization: Bearer <token>`, a falsy one falls back to the default
client with no auth header. -/
def shipWithToken (t : String) : TalkResult :=
  if t ≠ "" then .sent (some t) else .sent none

/-- `talk_to_agent` (STEPs 1, 2 and 4; the A2A payload of STEP 3 carries no
auth data).  The globals appear as arguments: `knownAgents`, `delegated`
(`DELEGATED_TOKENS`), the optional exchanger configuration, the exchanger's
internal cache, `masterToken` (`MASTER_TOKEN`), `agentConfigs`
(`AGENT_CONFIGS`).  A cached entry in `DELEGATED_TOKENS` is used with no
expiry check; otherwise, when the exchanger, a truthy master token and an
agent config are all present, `exchange_token_for_agent` runs (its raised
errors become returned error strings); else an error string is returned.
Returns the outcome and both updated caches. -/
def talkToAgent (knownAgents : List String) (delegated : DelegatedTokens)
    (cfg : Option ExchangerConfig) (env : ExchangerEnv) (exCache : TokenCache)
    (now : Nat) (masterToken : Option String)
    (agentConfigs : List (String × AgentConfigRec))
    (actorResp : Except String String) (exchResp : Except String ExchangeResponse)
    (agentName : String) : TalkResult × DelegatedTokens × TokenCache :=
  if !knownAgents.contains agentName then
    (.errorMsg ("Error: Agent " ++ agentName ++ " is not available."), delegated, exCache)
  else
    match delegated.lookup agentName with
    | some t => (shipWithToken t, delegated, exCache)
    | none =>
      match cfg, masterToken, agentConfigs.lookup agentName with
      | some c, some m, some acfg =>
        if m ≠ "" then
          match exchangeTokenForAgent c env exCache now m agentName acfg.appId
              acfg.requiredScope actorResp exchResp with
          | (.ok t, exCache2, _) =>
            (shipWithToken t, delegatedInsert delegated agentName t, exCache2)
          | (.error e, exCache2, _) =>
            (.errorMsg ("Error: Token exchange failed for " ++ agentName ++ ": " ++ e),
              delegated, exCache2)
        else
          (.errorMsg ("Error: Cannot get token for " ++ agentName ++ ". Configuration missing."),
            delegated, exCache)
      | _, _, _ =>
        (.errorMsg ("Error: Cannot get token for " ++ agentName ++ ". Configuration missing."),
          delegated, exCache)

/-! ## Interactive Credential Acquirer (src/orchestrator/user_auth.py and
src/agents/orchestrator_agent/browser_auth.py) -/

/-- A token-endpoint success body as used by the acquirers. -/
structure TokenData where
  accessToken : String
  refreshToken : Option String
  expiresIn : Option Nat
  scope : Option String
  deriving Repr, DecidableEq

/-- One mock token-endpoint answer to a device-flow poll: HTTP 200 with a
token body, or a non-200 body with an OAuth `error` code. -/
inductive PollResponse
  | success (td : TokenData)
  | oauthError (code : String)
  deriving Repr, DecidableEq

/-- `UserAuthenticator.poll_for_token`.  The mock server's scripted answers
are `responses` (one per poll); `elapsed` is wall-clock seconds since
`start_time` advanced by each sleep; `calls` counts token-endpoint POSTs
performed so far.  Mirrors the loop: timeout check (`elapsed > timeout`)
first, then one POST; 200 returns the body, `authorization_pending` sleeps
`interval` and continues, `slow_down` grows the interval by 5 then sleeps,
`expired_token`/`access_denied` abort, anything else errors.  Returns the
total number of polls with the winning body. -/
def pollForToken (responses : List PollResponse) (interval timeout elapsed calls : Nat) :
    Except String (Nat × TokenData) :=
  if timeout < elapsed then .error "User authentication timeout - please try again"
  else
    match responses with
    | [] => .error "mock server exhausted"
    | r :: rest =>
      match r with
      | .success td => .ok (calls + 1, td)
      | .oauthError code =>
        if code = "authorization_pending" then
          pollForToken rest interval timeout (elapsed + interval) (calls + 1)
        else if code = "slow_down" then
          pollForToken rest (interval + 5) timeout (elapsed + (interval + 5)) (calls + 1)
        else if code = "expired_token" || code = "access_denied" then
          .error ("Authentication failed: " ++ code)
        else .error "Token polling error"

/-- The master-token cache of `UserAuthenticator`
(`_master_token`, `_refresh_token`, `_token_expiry`). -/
structure UserAuthState where
  masterToken : Option String
  refreshToken : Option String
  tokenExpiry : Option Nat
  deriving Repr, DecidableEq

/-- The cached-token guard at the top of `authenticate_user`:
`if self._master_token and self._token_expiry:` (both truthy) and
`time.time() < self._token_expiry - 300` (5-minute buffer, written here
additively). -/
def hasValidCachedToken (st : UserAuthState) (now : Nat) : Bool :=
  match st.masterToken, st.tokenExpiry with
  | some m, some e => m != "" && e != 0 && now + 300 < e
  | _, _ => false

/-- `UserAuthenticator.authenticate_user`.  With a valid cached token it
returns it with zero token-endpoint calls; otherwise it runs the device
flow (`deviceInterval` = the server-specified `interval`, default 5) and
polls with the scripted `pollResponses`, then caches the token with
`expiry = now + expires_in` (default 3600).  The returned `Nat` counts
token-endpoint POSTs (the device-authorization POST targets a different
endpoint). -/
def authenticateUser (st : UserAuthState) (now : Nat)
    (deviceInterval : Option Nat) (pollResponses : List PollResponse) :
    Except String (String × UserAuthState × Nat) :=
  if hasValidCachedToken st now then
    .ok (st.masterToken.getD "", st, 0)
  else
    match pollForToken pollResponses (deviceInterval.getD 5) 300 0 0 with
    | .error e => .error e
    | .ok (calls, td) =>
      let st2 : UserAuthState :=
        { masterToken := some td.accessToken
          refreshToken := td.refreshToken
          tokenExpiry := some (now + td.expiresIn.getD 3600) }
      .ok (td.accessToken, st2, calls)

/-- The token fields of `BrowserAuthenticator`
(`_access_token`, `_refresh_token`) — note: no expiry field exists. -/
structure BrowserAuthState where
  accessToken : Option String
  refreshToken : Option String
  deriving Repr, DecidableEq

/-- What the local callback listener captured
(`CallbackHandler.authorization_code` / `error` / `error_description`). -/
structure CallbackResult where
  code : Option String
  error : Option String
  errorDescription : Option String
  deriving Repr, DecidableEq

/-- `BrowserAuthenticator.authenticate_user`.  There is no cached-token
check: every invocation runs PKCE generation, the browser redirect, the
callback wait, and — on a successful callback — exactly one token-endpoint
POST exchanging the code.  `tokenResp` is the token endpoint's answer.
Returns the token, the updated state, and the number of token-endpoint
POSTs issued. -/
def browserAuthenticateUser (st : BrowserAuthState) (cb : CallbackResult)
    (tokenResp : Except String TokenData) :
    Except String (String × BrowserAuthState × Nat) :=
  if pyTruthy cb.error then
    .error ("Asgardeo error: " ++ cb.error.getD "")
  else if !pyTruthy cb.code then
    .error "Failed to receive authorization code"
  else
    match tokenResp with
    | .error body => .error ("Failed to exchange code for token: " ++ body)
    | .ok td =>
      .ok (td.accessToken,
        { accessToken := some td.accessToken, refreshToken := td.refreshToken }, 1)

/-! ### Concrete fixtures used by witnesses and counterexamples -/

/-- The vaccination agent's display name, as registered in `AGENT_CONFIGS`. -/
def vaxName : String := "Pet Vaccination Assistant"

/-- A concrete exchanger configuration. -/
def wCfg : ExchangerConfig :=
  { tokenExchangeUrl := "https://idp/oauth2/token", clientId := "ORCH",
    clientSecret := "ORCHSECRET", apiResourceIdentifier := none }

/-- A concrete environment with the vaccination agent's secret configured. -/
def wEnv : ExchangerEnv :=
  { vaccinationAppSecret := some "VAXSECRET", appointmentsAppSecret := none }

/-- A concrete successful exchange response body. -/
def wResp : ExchangeResponse := { accessToken := "DELEGATED1", expiresIn := some 3600 }

/-! ## Theorems -/

/-- C8: in the device-authorization poll loop with the reference 300 s
timeout, a mock token endpoint answering `authorization_pending` three
times and then success causes exactly four poll calls, and the loop
terminates returning the body of the fourth response, for any polling
interval whose three sleeps fit inside the timeout (the reference default
is 5 s). -/
theorem pollLoop_three_pending_then_success (td : TokenData) (interval : Nat)
    (h : 3 * interval ≤ 300) :
    pollForToken
      [.oauthError "authorization_pending", .oauthError "authorization_pending",
       .oauthError "authorization_pending", .success td] interval 300 0 0 =
      .ok (4, td) := by
  have h1 : ¬ (300 < (0 : Nat)) := by omega
  have h2 : ¬ (300 < interval) := by omega
  have h3 : ¬ (300 < interval + interval) := by omega
  simp [pollForToken, h1, h2, h3]
  omega

/-- Witness for C8 at the reference default interval of 5 seconds. -/
theorem pollLoop_three_pending_then_success_witness :
    pollForToken
      [.oauthError "authorization_pending", .oauthError "authorization_pending",
       .oauthError "authorization_pending",
       .success ⟨"MASTERTOKEN", some "REFRESH", some 3600, some "vaccination:read appointments:read"⟩]
      5 300 0 0 =
      .ok (4, ⟨"MASTERTOKEN", some "REFRESH", some 3600, some "vaccination:read appointments:read"⟩) :=
  pollLoop_three_pending_then_success
    ⟨"MASTERTOKEN", some "REFRESH", some 3600, some "vaccination:read appointments:read"⟩ 5
    (by decide)

/-- C7 counterexample: with the JWKS URL absent from the environment and
the `ASGARDEO_AUTH_ENABLED` flag not set at all, the factory returns a
middleware whose verification is disabled — the bypass-all mode is entered
without any explicit opt-in flag, and no configuration error is raised
(`create_jwt_middleware_from_env` is total and never raises). -/
theorem missing_config_silently_disables :
    (createJwtMiddlewareFromEnv
        { jwksUrl := none, issuer := some "https://idp/oauth2/token",
          authEnabled := none, appointmentsAppId := some "APPID",
          apiResourceIdentifier := none }
        "appointments:read" none).enabled = false := by decide

/-- C7 amended: when both the JWKS URL and the issuer are configured
(non-empty), verification is enabled by default (flag unset) and in
general follows the `ASGARDEO_AUTH_ENABLED` flag; but when either is
missing or empty, the factory silently returns a disabled middleware
instead of surfacing a configuration error. -/
theorem enabled_only_downgraded_on_missing_config (env : MiddlewareEnv)
    (requiredScope : String) (agentId : Option String) :
    (pyTruthy env.jwksUrl = true → pyTruthy env.issuer = true →
      (createJwtMiddlewareFromEnv env requiredScope agentId).enabled =
        (lowerString (env.authEnabled.getD "true") == "true"))
    ∧ ((pyTruthy env.jwksUrl = false ∨ pyTruthy env.issuer = false) →
      (createJwtMiddlewareFromEnv env requiredScope agentId).enabled = false) := by
  constructor
  · intro hj hi
    simp [createJwtMiddlewareFromEnv, mkAsgardeoJWTMiddleware, hj, hi]
  · intro hmiss
    rcases hmiss with hm | hm <;>
      simp [createJwtMiddlewareFromEnv, mkAsgardeoJWTMiddleware, hm]

/-- Witness for the amended C7: a fully configured environment with the
flag unset yields enabled verification; dropping the issuer disables it. -/
theorem enabled_only_downgraded_on_missing_config_witness :
    (createJwtMiddlewareFromEnv
        { jwksUrl := some "https://idp/jwks", issuer := some "https://idp/oauth2/token",
          authEnabled := none, appointmentsAppId := some "APPID",
          apiResourceIdentifier := none }
        "appointments:read" none).enabled = (lowerString "true" == "true")
    ∧ (createJwtMiddlewareFromEnv
        { jwksUrl := some "https://idp/jwks", issuer := none,
          authEnabled := none, appointmentsAppId := some "APPID",
          apiResourceIdentifier := none }
        "appointments:read" none).enabled = false :=
  ⟨(enabled_only_downgraded_on_missing_config
      { jwksUrl := some "https://idp/jwks", issuer := some "https://idp/oauth2/token",
        authEnabled := none, appointmentsAppId := some "APPID",
        apiResourceIdentifier := none }
      "appointments:read" none).1 (by decide) (by decide),
   (enabled_only_downgraded_on_missing_config
      { jwksUrl := some "https://idp/jwks", issuer := none,
        authEnabled := none, appointmentsAppId := some "APPID",
        apiResourceIdentifier := none }
      "appointments:read" none).2 (Or.inr (by decide))⟩

/-- Helper: on an enabled middleware, a protected path and a well-formed
`Bearer` header, `dispatch` is `_validate_token` followed by the
result-to-response mapping. -/
theorem dispatch_protected_eq (cfg : MiddlewareConfig) (verify : Token → Jwk → Bool)
    (decode : String → Option Token) (st : JwksCacheState) (now : Nat)
    (fetchResult : Option JWKSet) (req : HttpRequest) (hdr tokenStr : String)
    (henabled : cfg.enabled = true)
    (hpath : isPublicPath req.path = false)
    (hauth : req.authorization = some hdr)
    (hparts : splitWords hdr = ["Bearer", tokenStr]) :
    dispatch cfg verify decode st now fetchResult req =
      (match validateToken cfg verify decode st now fetchResult tokenStr with
       | (.ok claims, st2, fc) => (.forwarded (some claims) claims.clientId, st2, fc)
       | (.error (.jwtError m), st2, fc) => (.rejected 401 "invalid_token" m, st2, fc)
       | (.error (.transportError m), st2, fc) =>
         (.rejected 500 "server_error" "Token validation failed due to server error", st2, fc)) := by
  have hlow : lowerString "Bearer" = "bearer" := by decide
  simp [dispatch, henabled, hpath, hauth, hparts, hlow]

/-- C5: an inbound request to a protected path whose bearer token carries a
`kid` matching no key of the (fresh) cached JWKS is rejected with status
401 and body error `invalid_token`, with zero JWKS fetch attempts — the
verifier fails immediately on the unmatched `kid` and never consults the
network oracle, whatever it would answer. -/
theorem kid_miss_fails_immediately_401 (cfg : MiddlewareConfig)
    (verify : Token → Jwk → Bool) (decode : String → Option Token)
    (st : JwksCacheState) (now : Nat) (fetchResult : Option JWKSet)
    (req : HttpRequest) (hdr tokenStr : String) (tok : Token) (jwks : JWKSet)
    (henabled : cfg.enabled = true)
    (hpath : isPublicPath req.path = false)
    (hauth : req.authorization = some hdr)
    (hparts : splitWords hdr = ["Bearer", tokenStr])
    (hfresh : cacheFresh st now = true)
    (hcache : st.cache = some jwks)
    (hdecode : decode tokenStr = some tok)
    (hmiss : findRsaKey jwks.keys tok.kid = none) :
    dispatch cfg verify decode st now fetchResult req =
      (.rejected 401 "invalid_token" "Public key not found for kid", st, 0) := by
  rw [dispatch_protected_eq cfg verify decode st now fetchResult req hdr tokenStr
    henabled hpath hauth hparts]
  simp [validateToken, getJwks, hfresh, hcache, hdecode, hmiss]

/-- Witness for C5: a concrete request whose token names `kid2` while the
cached JWKS only holds `kid1` is rejected 401/`invalid_token` with no
fetch attempt. -/
theorem kid_miss_fails_immediately_401_witness :
    dispatch
      { jwksUrl := "https://idp/jwks", issuer := "https://idp/oauth2/token",
        requiredScope := "appointments:read", agentId := "APPID",
        apiResourceIdentifier := "", enabled := true }
      (fun _ _ => true)
      (fun s =>
        if s = "TOKENSTR" then
          some ⟨some "kid2",
            { iss := "https://idp/oauth2/token", exp := 9000, aud := some "APPID",
              sub := some "user1", clientId := some "ORCH", scope := some "appointments:read" }⟩
        else none)
      ⟨some ⟨[⟨"kid1", "RSA", "sig", "modulus1", "AQAB"⟩]⟩, some 100⟩
      200 none ⟨"/rpc", some "Bearer TOKENSTR"⟩ =
      (.rejected 401 "invalid_token" "Public key not found for kid",
        ⟨some ⟨[⟨"kid1", "RSA", "sig", "modulus1", "AQAB"⟩]⟩, some 100⟩, 0) :=
  kid_miss_fails_immediately_401 _ _ _ _ 200 none _ "Bearer TOKENSTR" "TOKENSTR"
    ⟨some "kid2",
      { iss := "https://idp/oauth2/token", exp := 9000, aud := some "APPID",
        sub := some "user1", clientId := some "ORCH", scope := some "appointments:read" }⟩
    ⟨[⟨"kid1", "RSA", "sig", "modulus1", "AQAB"⟩]⟩
    (by decide) (by decide) rfl (by decide) (by decide) rfl (by decide) (by decide)

/-- C1: on an enabled middleware with a non-empty configured audience
list, a protected-path request with a well-formed `Bearer` token that
parses, against a successfully obtained JWKS, is forwarded with its claims
attached if and only if a JWKS key matching the token's `kid` verifies the
signature, the token is unexpired, the issuer matches, and the `aud` claim
matches some member of the audience list; every other combination of these
checks is rejected with status 401 (body error `invalid_token`). -/
theorem verifier_accept_iff (cfg : MiddlewareConfig)
    (verify : Token → Jwk → Bool) (decode : String → Option Token)
    (st : JwksCacheState) (now : Nat) (fetchResult : Option JWKSet)
    (req : HttpRequest) (hdr tokenStr : String) (tok : Token) (jwks : JWKSet)
    (st2 : JwksCacheState) (fc : Nat)
    (henabled : cfg.enabled = true)
    (hpath : isPublicPath req.path = false)
    (hauth : req.authorization = some hdr)
    (hparts : splitWords hdr = ["Bearer", tokenStr])
    (hjwks : getJwks st now fetchResult = (.ok jwks, st2, fc))
    (hdecode : decode tokenStr = some tok)
    (hauds : validAudiences cfg.agentId cfg.apiResourceIdentifier ≠ []) :
    ((dispatch cfg verify decode st now fetchResult req).1 =
        .forwarded (some tok.claims) tok.claims.clientId
      ↔ tokenChecksPass cfg verify jwks now tok = true)
    ∧ (tokenChecksPass cfg verify jwks now tok = false →
        ∃ msg, (dispatch cfg verify decode st now fetchResult req).1 =
          .rejected 401 "invalid_token" msg) := by
  rw [dispatch_protected_eq cfg verify decode st now fetchResult req hdr tokenStr
    henabled hpath hauth hparts]
  unfold validateToken
  rw [hjwks, hdecode]
  rcases hfind : findRsaKey jwks.keys tok.kid with _ | k
  · refine ⟨by simp [tokenChecksPass, hfind], fun _ =>
      ⟨"Public key not found for kid", by simp [hfind]⟩⟩
  · rcases hver : verify tok k with _ | _
    · refine ⟨by simp [tokenChecksPass, hfind, hver], fun _ =>
        ⟨"Signature verification failed", by simp [hfind, hver]⟩⟩
    · by_cases hexp : tok.claims.exp < now
      · refine ⟨by simp [tokenChecksPass, hfind, hver, hexp], fun _ =>
          ⟨"Signature has expired", by simp [hfind, hver, hexp]⟩⟩
      · by_cases hiss : tok.claims.iss = cfg.issuer
        · by_cases haud :
            audMatches tok.claims.aud (validAudiences cfg.agentId cfg.apiResourceIdentifier) = true
          · constructor
            · simp [tokenChecksPass, hfind, hver, hexp, hiss, haud]
            · intro hfail
              exfalso
              simp [tokenChecksPass, hfind, hver, hexp, hiss, haud] at hfail
          · refine ⟨by simp [tokenChecksPass, hfind, hver, hexp, hiss, haud, hauds], fun _ =>
              ⟨"Invalid audience", by simp [hfind, hver, hexp, hiss, haud, hauds]⟩⟩
        · refine ⟨by simp [tokenChecksPass, hfind, hver, hexp, hiss], fun _ =>
            ⟨"Invalid issuer", by simp [hfind, hver, hexp, hiss]⟩⟩

/-- Witness for C1: a concrete valid token (matching `kid`, verifying
signature, unexpired, matching issuer, `aud` equal to the agent id) is
forwarded with its claims attached. -/
theorem verifier_accept_iff_witness :
    (dispatch
      { jwksUrl := "https://idp/jwks", issuer := "https://idp/oauth2/token",
        requiredScope := "appointments:read", agentId := "APPID",
        apiResourceIdentifier := "", enabled := true }
      (fun _ _ => true)
      (fun s =>
        if s = "TOKENSTR" then
          some ⟨some "kid1",
            { iss := "https://idp/oauth2/token", exp := 9000, aud := some "APPID",
              sub := some "user1", clientId := some "ORCH", scope := some "appointments:read" }⟩
        else none)
      ⟨some ⟨[⟨"kid1", "RSA", "sig", "modulus1", "AQAB"⟩]⟩, some 100⟩
      200 none ⟨"/rpc", some "Bearer TOKENSTR"⟩).1 =
      .forwarded
        (some { iss := "https://idp/oauth2/token", exp := 9000, aud := some "APPID",
                sub := some "user1", clientId := some "ORCH", scope := some "appointments:read" })
        (some "ORCH") :=
  (verifier_accept_iff
    { jwksUrl := "https://idp/jwks", issuer := "https://idp/oauth2/token",
      requiredScope := "appointments:read", agentId := "APPID",
      apiResourceIdentifier := "", enabled := true }
    (fun _ _ => true)
    (fun s =>
      if s = "TOKENSTR" then
        some ⟨some "kid1",
          { iss := "https://idp/oauth2/token", exp := 9000, aud := some "APPID",
            sub := some "user1", clientId := some "ORCH", scope := some "appointments:read" }⟩
      else none)
    ⟨some ⟨[⟨"kid1", "RSA", "sig", "modulus1", "AQAB"⟩]⟩, some 100⟩
    200 none ⟨"/rpc", some "Bearer TOKENSTR"⟩ "Bearer TOKENSTR" "TOKENSTR"
    ⟨some "kid1",
      { iss := "https://idp/oauth2/token", exp := 9000, aud := some "APPID",
        sub := some "user1", clientId := some "ORCH", scope := some "appointments:read" }⟩
    ⟨[⟨"kid1", "RSA", "sig", "modulus1", "AQAB"⟩]⟩
    ⟨some ⟨[⟨"kid1", "RSA", "sig", "modulus1", "AQAB"⟩]⟩, some 100⟩ 0
    (by decide) (by decide) rfl (by decide) rfl rfl (by decide)).1.mpr (by decide)

/-- C10: when the middleware is configured with an empty agent id and an
empty API resource identifier, its audience list is empty and the audience
check is skipped: any token with a matching verifying key, unexpired
expiry and matching issuer is forwarded, whatever its `aud` claim. -/
theorem empty_audience_config_accepts_any_aud (cfg : MiddlewareConfig)
    (verify : Token → Jwk → Bool) (decode : String → Option Token)
    (st : JwksCacheState) (now : Nat) (fetchResult : Option JWKSet)
    (req : HttpRequest) (hdr tokenStr : String) (tok : Token) (jwks : JWKSet)
    (st2 : JwksCacheState) (fc : Nat) (k : Jwk)
    (henabled : cfg.enabled = true)
    (hpath : isPublicPath req.path = false)
    (hauth : req.authorization = some hdr)
    (hparts : splitWords hdr = ["Bearer", tokenStr])
    (hjwks : getJwks st now fetchResult = (.ok jwks, st2, fc))
    (hdecode : decode tokenStr = some tok)
    (hagent : cfg.agentId = "")
    (hapi : cfg.apiResourceIdentifier = "")
    (hfind : findRsaKey jwks.keys tok.kid = some k)
    (hsig : verify tok k = true)
    (hexp : ¬ tok.claims.exp < now)
    (hiss : tok.claims.iss = cfg.issuer) :
    (dispatch cfg verify decode st now fetchResult req).1 =
      .forwarded (some tok.claims) tok.claims.clientId := by
  rw [dispatch_protected_eq cfg verify decode st now fetchResult req hdr tokenStr
    henabled hpath hauth hparts]
  unfold validateToken
  rw [hjwks, hdecode]
  have hauds : validAudiences cfg.agentId cfg.apiResourceIdentifier = [] := by
    simp [validAudiences, hagent, hapi]
  simp [hfind, hsig, hexp, hiss, hauds]

/-- Witness for C10: with no configured audiences, a token whose `aud` is
an entirely unrelated value is still forwarded. -/
theorem empty_audience_config_accepts_any_aud_witness :
    (dispatch
      { jwksUrl := "https://idp/jwks", issuer := "https://idp/oauth2/token",
        requiredScope := "appointments:read", agentId := "",
        apiResourceIdentifier := "", enabled := true }
      (fun _ _ => true)
      (fun s =>
        if s = "TOKENSTR" then
          some ⟨some "kid1",
            { iss := "https://idp/oauth2/token", exp := 9000,
              aud := some "SOME-UNRELATED-AUDIENCE",
              sub := some "user1", clientId := some "ORCH", scope := none }⟩
        else none)
      ⟨some ⟨[⟨"kid1", "RSA", "sig", "modulus1", "AQAB"⟩]⟩, some 100⟩
      200 none ⟨"/rpc", some "Bearer TOKENSTR"⟩).1 =
      .forwarded
        (some { iss := "https://idp/oauth2/token", exp := 9000,
                aud := some "SOME-UNRELATED-AUDIENCE",
                sub := some "user1", clientId := some "ORCH", scope := none })
        (some "ORCH") :=
  empty_audience_config_accepts_any_aud
    { jwksUrl := "https://idp/jwks", issuer := "https://idp/oauth2/token",
      requiredScope := "appointments:read", agentId := "",
      apiResourceIdentifier := "", enabled := true }
    (fun _ _ => true)
    (fun s =>
      if s = "TOKENSTR" then
        some ⟨some "kid1",
          { iss := "https://idp/oauth2/token", exp := 9000,
            aud := some "SOME-UNRELATED-AUDIENCE",
            sub := some "user1", clientId := some "ORCH", scope := none }⟩
      else none)
    ⟨some ⟨[⟨"kid1", "RSA", "sig", "modulus1", "AQAB"⟩]⟩, some 100⟩
    200 none ⟨"/rpc", some "Bearer TOKENSTR"⟩ "Bearer TOKENSTR" "TOKENSTR"
    ⟨some "kid1",
      { iss := "https://idp/oauth2/token", exp := 9000,
        aud := some "SOME-UNRELATED-AUDIENCE",
        sub := some "user1", clientId := some "ORCH", scope := none }⟩
    ⟨[⟨"kid1", "RSA", "sig", "modulus1", "AQAB"⟩]⟩
    ⟨some ⟨[⟨"kid1", "RSA", "sig", "modulus1", "AQAB"⟩]⟩, some 100⟩ 0
    ⟨"kid1", "RSA", "sig", "modulus1", "AQAB"⟩
    (by decide) (by decide) rfl (by decide) rfl rfl rfl rfl (by decide) rfl
    (by decide) rfl

/-- C4: with a cached entry for the service (whose recorded expiry is the
actual token expiry minus the 60 s safety margin, as stored by the code),
`exchange_token_for_agent` returns the cached token with no IdP request
while more than the margin remains before the actual expiry; once within
the margin, the entry is treated as expired, deleted, and a fresh exchange
runs and re-caches with the margin applied. -/
theorem exchange_cache_safety_margin (cfg : ExchangerConfig) (env : ExchangerEnv)
    (cache : TokenCache) (now : Nat)
    (masterToken agentName agentClientId requiredScope : String)
    (actorResp : Except String String) (exchResp : Except String ExchangeResponse)
    (entry : CacheEntry) (actualExpiry : Nat)
    (hentry : cache.lookup agentName = some entry)
    (hactual : actualExpiry = entry.expiry + 60) :
    (now + 60 < actualExpiry →
      exchangeTokenForAgent cfg env cache now masterToken agentName agentClientId
        requiredScope actorResp exchResp = (.ok entry.token, cache, []))
    ∧ (actualExpiry ≤ now + 60 →
      ∀ sec a resp, getAgentSecret env agentName = some sec →
        actorResp = .ok a → exchResp = .ok resp →
        exchangeTokenForAgent cfg env cache now masterToken agentName agentClientId
          requiredScope actorResp exchResp =
          (.ok resp.accessToken,
           cacheInsert (cacheErase cache agentName) agentName
             ⟨resp.accessToken, now + resp.expiresIn.getD 3600 - 60⟩,
           [actorTokenRequest cfg.tokenExchangeUrl agentClientId sec,
            ⟨cfg.tokenExchangeUrl,
             exchangeRequestData cfg.apiResourceIdentifier masterToken requiredScope,
             .basic agentClientId sec⟩])) := by
  constructor
  · intro hfreshT
    have hlt : now < entry.expiry := by omega
    simp [exchangeTokenForAgent, getCachedToken, hentry, hlt]
  · intro hstale sec a resp hsec hact hexch
    have hge : ¬ now < entry.expiry := by omega
    subst hact
    subst hexch
    simp [exchangeTokenForAgent, getCachedToken, hentry, hge, hsec]

/-- Witness for C4: a cached token is served as-is with no requests at
`now = 1000` (expiry 5000, actual 5060), and at `now = 5000` — inside the
60 s margin — a fresh exchange runs instead. -/
theorem exchange_cache_safety_margin_witness :
    exchangeTokenForAgent wCfg wEnv [(vaxName, ⟨"CACHEDTOK", 5000⟩)] 1000 "MASTER"
      vaxName "VAX1" "vaccination:read" (.ok "ACTOR") (.ok wResp) =
      (.ok "CACHEDTOK", [(vaxName, ⟨"CACHEDTOK", 5000⟩)], [])
    ∧ exchangeTokenForAgent wCfg wEnv [(vaxName, ⟨"CACHEDTOK", 5000⟩)] 5000 "MASTER"
      vaxName "VAX1" "vaccination:read" (.ok "ACTOR") (.ok wResp) =
      (.ok wResp.accessToken,
       cacheInsert (cacheErase [(vaxName, ⟨"CACHEDTOK", 5000⟩)] vaxName) vaxName
         ⟨wResp.accessToken, 5000 + wResp.expiresIn.getD 3600 - 60⟩,
       [actorTokenRequest wCfg.tokenExchangeUrl "VAX1" "VAXSECRET",
        ⟨wCfg.tokenExchangeUrl,
         exchangeRequestData wCfg.apiResourceIdentifier "MASTER" "vaccination:read",
         .basic "VAX1" "VAXSECRET"⟩]) :=
  ⟨(exchange_cache_safety_margin wCfg wEnv [(vaxName, ⟨"CACHEDTOK", 5000⟩)] 1000 "MASTER"
      vaxName "VAX1" "vaccination:read" (.ok "ACTOR") (.ok wResp)
      ⟨"CACHEDTOK", 5000⟩ 5060 (by decide) rfl).1 (by decide),
   (exchange_cache_safety_margin wCfg wEnv [(vaxName, ⟨"CACHEDTOK", 5000⟩)] 5000 "MASTER"
      vaxName "VAX1" "vaccination:read" (.ok "ACTOR") (.ok wResp)
      ⟨"CACHEDTOK", 5000⟩ 5060 (by decide) rfl).2 (by decide)
     "VAXSECRET" "ACTOR" wResp (by decide) rfl rfl⟩

/-- C3 counterexample: on a concrete cache-miss exchange the IdP sees
exactly two requests — the client-credentials mint and the exchange — and
the exchange request contains no `actor_token` field and no field whose
value is the minted actor token "ACTORTOKEN"; the minted token is therefore
not presented during the delegation (identity is proven by the Basic auth
header instead), contrary to the claim. -/
theorem actor_token_not_in_exchange_request :
    (exchangeTokenForAgent wCfg wEnv [] 1000 "MASTERTOKEN" vaxName "VAX1"
        "vaccination:read" (.ok "ACTORTOKEN") (.ok wResp)).2.2 =
      [actorTokenRequest "https://idp/oauth2/token" "VAX1" "VAXSECRET",
       ⟨"https://idp/oauth2/token",
        exchangeRequestData none "MASTERTOKEN" "vaccination:read",
        .basic "VAX1" "VAXSECRET"⟩]
    ∧ (exchangeRequestData none "MASTERTOKEN" "vaccination:read").lookup "actor_token" = none
    ∧ (∀ kv ∈ exchangeRequestData none "MASTERTOKEN" "vaccination:read",
        kv.2 ≠ "ACTORTOKEN") := by
  decide

/-- C3 amended: on every cache-miss exchange with a configured secret and
successful IdP answers, an actor token is minted for the target service via
a client-credentials grant (the first request, authenticated as the
service), but the token-exchange request itself does not include it: the
exchange request's form has no `actor_token` key, and the service's proof
of identity during delegation is the HTTP Basic header with the service's
own client id and secret. -/
theorem exchange_uses_basic_auth_not_actor_token (cfg : ExchangerConfig)
    (env : ExchangerEnv) (cache : TokenCache) (now : Nat)
    (masterToken agentName agentClientId requiredScope a sec : String)
    (resp : ExchangeResponse)
    (hmiss : (getCachedToken cache now agentName).1 = none)
    (hsec : getAgentSecret env agentName = some sec) :
    (exchangeTokenForAgent cfg env cache now masterToken agentName agentClientId
        requiredScope (.ok a) (.ok resp) =
      (.ok resp.accessToken,
       cacheInsert (getCachedToken cache now agentName).2 agentName
         ⟨resp.accessToken, now + resp.expiresIn.getD 3600 - 60⟩,
       [actorTokenRequest cfg.tokenExchangeUrl agentClientId sec,
        ⟨cfg.tokenExchangeUrl,
         exchangeRequestData cfg.apiResourceIdentifier masterToken requiredScope,
         .basic agentClientId sec⟩]))
    ∧ (actorTokenRequest cfg.tokenExchangeUrl agentClientId sec).formData.lookup
        "grant_type" = some "client_credentials"
    ∧ (∀ kv ∈ exchangeRequestData cfg.apiResourceIdentifier masterToken requiredScope,
        kv.1 ≠ "actor_token") := by
  refine ⟨?_, rfl, ?_⟩
  · rcases hgc : getCachedToken cache now agentName with ⟨o, cache2⟩
    rw [hgc] at hmiss
    simp only at hmiss
    subst hmiss
    simp [exchangeTokenForAgent, hgc, hsec]
  · intro kv hkv
    rcases hapi : pyTruthy cfg.apiResourceIdentifier with _ | _ <;>
      simp [exchangeRequestData, hapi] at hkv <;>
      rcases hkv with rfl | rfl | rfl | rfl | rfl | rfl | rfl <;> simp

/-- Witness for the amended C3 at the concrete vaccination-agent inputs. -/
theorem exchange_uses_basic_auth_not_actor_token_witness :
    (exchangeTokenForAgent wCfg wEnv [] 1000 "MASTERTOKEN" vaxName "VAX1"
        "vaccination:read" (.ok "ACTORTOKEN") (.ok wResp) =
      (.ok wResp.accessToken,
       cacheInsert (getCachedToken [] 1000 vaxName).2 vaxName
         ⟨wResp.accessToken, 1000 + wResp.expiresIn.getD 3600 - 60⟩,
       [actorTokenRequest wCfg.tokenExchangeUrl "VAX1" "VAXSECRET",
        ⟨wCfg.tokenExchangeUrl,
         exchangeRequestData wCfg.apiResourceIdentifier "MASTERTOKEN" "vaccination:read",
         .basic "VAX1" "VAXSECRET"⟩]))
    ∧ (actorTokenRequest wCfg.tokenExchangeUrl "VAX1" "VAXSECRET").formData.lookup
        "grant_type" = some "client_credentials"
    ∧ (∀ kv ∈ exchangeRequestData wCfg.apiResourceIdentifier "MASTERTOKEN" "vaccination:read",
        kv.1 ≠ "actor_token") :=
  exchange_uses_basic_auth_not_actor_token wCfg wEnv [] 1000 "MASTERTOKEN" vaxName
    "VAX1" "vaccination:read" "ACTORTOKEN" "VAXSECRET" wResp (by decide) (by decide)

/-- Helper: a token served from the exchanger's internal cache comes from
an entry for that name whose recorded expiry is strictly in the future. -/
theorem getCachedToken_some (cache : TokenCache) (now : Nat) (name t : String)
    (c2 : TokenCache) (h : getCachedToken cache now name = (some t, c2)) :
    ∃ e, cache.lookup name = some e ∧ e.token = t ∧ now < e.expiry := by
  unfold getCachedToken at h
  rcases hl : cache.lookup name with _ | entry
  · simp [hl] at h
  · by_cases he : now < entry.expiry
    · simp [hl, he] at h
      exact ⟨entry, rfl, h.1, he⟩
    · simp [hl, he] at h

/-- Helper: a successful `exchange_token_for_agent` result is either the
internally cached token or the access token of the exchange response. -/
theorem exchangeOk_provenance (cfg : ExchangerConfig) (env : ExchangerEnv)
    (cache : TokenCache) (now : Nat)
    (masterToken agentName agentClientId requiredScope : String)
    (actorResp : Except String String) (exchResp : Except String ExchangeResponse)
    (t : String) (c2 : TokenCache) (reqs : List IdpRequest)
    (h : exchangeTokenForAgent cfg env cache now masterToken agentName agentClientId
        requiredScope actorResp exchResp = (.ok t, c2, reqs)) :
    (∃ e, cache.lookup agentName = some e ∧ e.token = t)
    ∨ (∃ r, exchResp = .ok r ∧ r.accessToken = t) := by
  unfold exchangeTokenForAgent at h
  rcases hgc : getCachedToken cache now agentName with ⟨o, cacheB⟩
  rcases o with _ | tc
  · rcases hsec : getAgentSecret env agentName with _ | sec
    · simp [hgc, hsec] at h
    · rcases actorResp with e | a
      · simp [hgc, hsec] at h
      · rcases exchResp with e | resp
        · simp [hgc, hsec] at h
        · right
          refine ⟨resp, rfl, ?_⟩
          simp [hgc, hsec] at h
          exact h.1
  · left
    simp [hgc] at h
    obtain ⟨e, hl, het, -⟩ := getCachedToken_some cache now agentName tc cacheB hgc
    exact ⟨e, hl, het.trans h.1⟩

/-- C6 counterexample: a first `talk_to_agent` call at `now = 1000`
exchanges and caches the token "TOK" with recorded expiry 4540 in the
exchanger's cache, and also stores it in `DELEGATED_TOKENS` with no expiry;
a second call at `now = 10000` — far past the recorded expiry 4540 — still
returns "TOK" from the `DELEGATED_TOKENS` lookup, so a delegated-token
cache does serve a token past its recorded expiry. -/
theorem delegated_cache_serves_expired_token :
    talkToAgent [vaxName] [] (some wCfg) wEnv [] 1000 (some "MASTER")
        [(vaxName, ⟨vaxName, "VAX1", "VAXSECRET", "vaccination:read"⟩)]
        (.ok "ACTOR") (.ok ⟨"TOK", some 3600⟩) vaxName =
      (.sent (some "TOK"), [(vaxName, "TOK")], [(vaxName, ⟨"TOK", 4540⟩)])
    ∧ talkToAgent [vaxName] [(vaxName, "TOK")] (some wCfg) wEnv
        [(vaxName, ⟨"TOK", 4540⟩)] 10000 (some "MASTER")
        [(vaxName, ⟨vaxName, "VAX1", "VAXSECRET", "vaccination:read"⟩)]
        (.ok "ACTOR2") (.ok ⟨"TOK2", some 3600⟩) vaxName =
      (.sent (some "TOK"), [(vaxName, "TOK")], [(vaxName, ⟨"TOK", 4540⟩)])
    ∧ 4540 < 10000 := by
  decide

/-- C6 amended: the exchanger's internal `_token_cache` never serves a
token past its recorded expiry and a dict insert keeps at most one entry
per service name; but the orchestrator's module-level `DELEGATED_TOKENS`
cache records no expiry, and `talk_to_agent` returns its entry unchanged at
every time `now`, so that layer can serve a token past the expiry the
exchanger recorded for it. -/
theorem delegated_token_cache_policies :
    (∀ (cache : TokenCache) (now : Nat) (name t : String) (c2 : TokenCache),
      getCachedToken cache now name = (some t, c2) →
      ∃ e, cache.lookup name = some e ∧ e.token = t ∧ now < e.expiry)
    ∧ (∀ (knownAgents : List String) (delegated : DelegatedTokens)
        (cfg : Option ExchangerConfig) (env : ExchangerEnv) (exCache : TokenCache)
        (now : Nat) (masterToken : Option String)
        (agentConfigs : List (String × AgentConfigRec))
        (actorResp : Except String String) (exchResp : Except String ExchangeResponse)
        (agentName t : String),
        knownAgents.contains agentName = true →
        delegated.lookup agentName = some t →
        talkToAgent knownAgents delegated cfg env exCache now masterToken agentConfigs
          actorResp exchResp agentName = (shipWithToken t, delegated, exCache))
    ∧ (∀ (c : TokenCache) (k : String) (v : CacheEntry),
        (c.map Prod.fst).Nodup → ((cacheInsert c k v).map Prod.fst).Nodup) := by
  refine ⟨getCachedToken_some, ?_, ?_⟩
  · intro knownAgents delegated cfg env exCache now masterToken agentConfigs
      actorResp exchResp agentName t hknown hlookup
    simp [talkToAgent, hlookup]
    intro hcontra
    exact absurd (by simpa using hknown) hcontra
  · intro c k v h
    unfold cacheInsert cacheErase
    rw [List.map_append]
    apply List.Nodup.append
    · exact h.sublist ((List.filter_sublist c).map Prod.fst)
    · exact List.nodup_singleton _
    · intro a ha hb
      rcases List.mem_singleton.mp hb with rfl
      rcases List.mem_map.mp ha with ⟨p, hp, hpk⟩
      rcases List.mem_filter.mp hp with ⟨-, hne⟩
      simp at hne
      exact hne hpk

/-- Witness for the amended C6: an unexpired concrete cache entry is
provably served from a live entry, a `DELEGATED_TOKENS` hit is returned
unchanged, and a dict insert keeps the key set duplicate-free. -/
theorem delegated_token_cache_policies_witness :
    (∃ e, ([(vaxName, CacheEntry.mk "CTOK" 500)] : TokenCache).lookup vaxName = some e ∧
      e.token = "CTOK" ∧ 100 < e.expiry)
    ∧ talkToAgent [vaxName] [(vaxName, "TOK")] (some wCfg) wEnv [] 999 (some "MASTER")
        [] (.ok "A") (.ok wResp) vaxName = (shipWithToken "TOK", [(vaxName, "TOK")], [])
    ∧ ((cacheInsert [(vaxName, CacheEntry.mk "X" 1)] vaxName
        (CacheEntry.mk "Y" 2)).map Prod.fst).Nodup :=
  ⟨delegated_token_cache_policies.1 [(vaxName, CacheEntry.mk "CTOK" 500)] 100 vaxName
      "CTOK" [(vaxName, CacheEntry.mk "CTOK" 500)] (by decide),
   delegated_token_cache_policies.2.1 [vaxName] [(vaxName, "TOK")] (some wCfg) wEnv []
      999 (some "MASTER") [] (.ok "A") (.ok wResp) vaxName "TOK" (by decide) (by decide),
   delegated_token_cache_policies.2.2 [(vaxName, CacheEntry.mk "X" 1)] vaxName
      (CacheEntry.mk "Y" 2) (by decide)⟩

/-- C2: whenever `talk_to_agent` actually sends a message carrying an
`Authorization: Bearer` token, that token is a delegated token — it came
from the `DELEGATED_TOKENS` cache, the exchanger's internal cache, or the
exchange response — and, provided the tokens held by those sources differ
from the master token (they are IdP-issued delegated tokens) and are
non-empty, the bearer token is never the master token. -/
theorem outbound_bearer_is_delegated_never_master
    (knownAgents : List String) (delegated : DelegatedTokens)
    (cfg : ExchangerConfig) (env : ExchangerEnv) (exCache : TokenCache)
    (now : Nat) (m : String) (agentConfigs : List (String × AgentConfigRec))
    (actorResp : Except String String) (exchResp : Except String ExchangeResponse)
    (agentName : String) (b : Option String)
    (deleg2 : DelegatedTokens) (exCache2 : TokenCache)
    (hdeleg : ∀ n t, delegated.lookup n = some t → t ≠ m ∧ t ≠ "")
    (hexcache : ∀ n e, exCache.lookup n = some e → e.token ≠ m ∧ e.token ≠ "")
    (hexch : ∀ r, exchResp = .ok r → r.accessToken ≠ m ∧ r.accessToken ≠ "")
    (hrun : talkToAgent knownAgents delegated (some cfg) env exCache now (some m)
        agentConfigs actorResp exchResp agentName = (.sent b, deleg2, exCache2)) :
    ∃ t, b = some t ∧ t ≠ m ∧
      (delegated.lookup agentName = some t
       ∨ (∃ e, exCache.lookup agentName = some e ∧ e.token = t)
       ∨ (∃ r, exchResp = .ok r ∧ r.accessToken = t)) := by
  unfold talkToAgent at hrun
  by_cases hknown : knownAgents.contains agentName = true
  · have hmem : agentName ∈ knownAgents := by simpa using hknown
    rcases hl : delegated.lookup agentName with _ | t0
    · rcases hc : agentConfigs.lookup agentName with _ | acfg
      · simp [hmem, hl, hc] at hrun
      · by_cases hm : m = ""
        · simp [hmem, hl, hc, hm] at hrun
        · rcases hex : exchangeTokenForAgent cfg env exCache now m agentName acfg.appId
              acfg.requiredScope actorResp exchResp with ⟨res, ec2, reqs⟩
          rcases res with e | t
          · simp [hmem, hl, hc, hm, hex] at hrun
          · have hprov := exchangeOk_provenance cfg env exCache now m agentName
              acfg.appId acfg.requiredScope actorResp exchResp t ec2 reqs hex
            have htm : t ≠ m ∧ t ≠ "" := by
              rcases hprov with ⟨e, hl2, het⟩ | ⟨r, hr, hat⟩
              · exact het ▸ hexcache agentName e hl2
              · exact hat ▸ hexch r hr
            simp [hmem, hl, hc, hm, hex, shipWithToken, htm.2] at hrun
            refine ⟨t, hrun.1.symm, htm.1, ?_⟩
            rcases hprov with ⟨e, hl2, het⟩ | ⟨r, hr, hat⟩
            · exact Or.inr (Or.inl ⟨e, hl2, het⟩)
            · exact Or.inr (Or.inr ⟨r, hr, hat⟩)
    · have ht0 := hdeleg agentName t0 hl
      simp [hmem, hl, shipWithToken, ht0.2] at hrun
      exact ⟨t0, hrun.1.symm, ht0.1, Or.inl rfl⟩
  · have hmem : agentName ∉ knownAgents := by
      simpa using hknown
    simp [hmem] at hrun

/-- Witness for C2: a concrete `talk_to_agent` run whose exchange yields
"DELEGATED1" sends that token, not the master token "MASTER". -/
theorem outbound_bearer_is_delegated_never_master_witness :
    ∃ t, (some "DELEGATED1" : Option String) = some t ∧ t ≠ "MASTER" ∧
      (([] : DelegatedTokens).lookup vaxName = some t
       ∨ (∃ e, ([] : TokenCache).lookup vaxName = some e ∧ e.token = t)
       ∨ (∃ r, (Except.ok wResp : Except String ExchangeResponse) = .ok r ∧
            r.accessToken = t)) :=
  outbound_bearer_is_delegated_never_master [vaxName] [] wCfg wEnv [] 1000 "MASTER"
    [(vaxName, ⟨vaxName, "VAX1", "VAXSECRET", "vaccination:read"⟩)]
    (.ok "ACTOR") (.ok wResp) vaxName (some "DELEGATED1")
    [(vaxName, "DELEGATED1")] [(vaxName, ⟨"DELEGATED1", 4540⟩)]
    (by intro n t h; simp at h)
    (by intro n e h; simp at h)
    (by intro r h; injection h with h1; subst h1; exact ⟨by decide, by decide⟩)
    (by decide)

/-- C9 counterexample: the browser-based strategy keeps no expiry state and
re-runs the whole flow on every call: with a previously obtained token
"CACHEDMASTER" still stored, a second `authenticate_user` call performs one
token-endpoint call (not zero) and returns the newly exchanged token. -/
theorem browser_reauth_not_idempotent :
    browserAuthenticateUser ⟨some "CACHEDMASTER", none⟩
      ⟨some "AUTHCODE", none, none⟩
      (.ok ⟨"NEWTOKEN", some "NEWREFRESH", some 3600, none⟩) =
      .ok ("NEWTOKEN", ⟨some "NEWTOKEN", some "NEWREFRESH"⟩, 1) := rfl

/-- C9 amended: the device-flow `UserAuthenticator.authenticate_user` is
idempotent — after a successful call, a second call while within the
cached token's validity window minus the 5-minute buffer returns the same
token and state with zero token-endpoint calls; the browser-based
`BrowserAuthenticator.authenticate_user`, by contrast, performs one
token-endpoint call on every invocation with a successful callback,
whatever token is already cached. -/
theorem authenticate_idempotent_device_only :
    (∀ (st0 : UserAuthState) (now1 now2 : Nat) (dI dI2 : Option Nat)
        (prs prs2 : List PollResponse) (tok : String) (st1 : UserAuthState) (n : Nat),
      authenticateUser st0 now1 dI prs = .ok (tok, st1, n) →
      tok ≠ "" →
      now2 + 300 < st1.tokenExpiry.getD 0 →
      authenticateUser st1 now2 dI2 prs2 = .ok (tok, st1, 0))
    ∧ (∀ (st : BrowserAuthState) (cb : CallbackResult) (td : TokenData),
        pyTruthy cb.error = false → pyTruthy cb.code = true →
        browserAuthenticateUser st cb (.ok td) =
          .ok (td.accessToken, ⟨some td.accessToken, td.refreshToken⟩, 1)) := by
  constructor
  · intro st0 now1 now2 dI dI2 prs prs2 tok st1 n h htok hwin
    have hst : st1.masterToken = some tok ∧ ∃ e, st1.tokenExpiry = some e := by
      unfold authenticateUser at h
      by_cases hc : hasValidCachedToken st0 now1 = true
      · rw [if_pos hc] at h
        rcases hm : st0.masterToken with _ | m
        · simp [hasValidCachedToken, hm] at hc
        · rcases he : st0.tokenExpiry with _ | e0
          · simp [hasValidCachedToken, hm, he] at hc
          · rw [hm] at h
            simp at h
            obtain ⟨rfl, rfl, -⟩ := h
            exact ⟨hm, e0, he⟩
      · rw [if_neg hc] at h
        rcases hp : pollForToken prs (dI.getD 5) 300 0 0 with e | pair <;> rw [hp] at h
        · simp at h
        · rcases pair with ⟨calls, td⟩
          simp at h
          obtain ⟨rfl, rfl, -⟩ := h
          exact ⟨rfl, now1 + td.expiresIn.getD 3600, rfl⟩
    obtain ⟨hm1, e, he1⟩ := hst
    rw [he1] at hwin
    simp at hwin
    have hv : hasValidCachedToken st1 now2 = true := by
      simp [hasValidCachedToken, hm1, he1, htok]
      omega
    unfold authenticateUser
    rw [if_pos hv, hm1]
    rfl
  · intro st cb td he hcode
    simp [browserAuthenticateUser, he, hcode]

/-- Witness for the amended C9: a second device-flow call at `now = 2000`
against a token cached until 4600 returns it with zero token-endpoint
calls, while a browser-flow call with a cached token still performs one. -/
theorem authenticate_idempotent_device_only_witness :
    authenticateUser ⟨some "MTOK", none, some 4600⟩ 2000 none [] =
      .ok ("MTOK", ⟨some "MTOK", none, some 4600⟩, 0)
    ∧ browserAuthenticateUser ⟨some "OLDTOK", none⟩ ⟨some "CODE", none, none⟩
        (.ok ⟨"NEWTOK", none, none, none⟩) =
      .ok ("NEWTOK", ⟨some "NEWTOK", none⟩, 1) :=
  ⟨authenticate_idempotent_device_only.1 ⟨none, none, none⟩ 1000 2000 none none
      [.success ⟨"MTOK", none, some 3600, none⟩] [] "MTOK"
      ⟨some "MTOK", none, some 4600⟩ 1 rfl (by decide) (by decide),
   authenticate_idempotent_device_only.2 ⟨some "OLDTOK", none⟩ ⟨some "CODE", none, none⟩
      ⟨"NEWTOK", none, none, none⟩ (by decide) (by decide)⟩

end PetA2A
